import Mathlib

/-!
Shallow embedding of `THNN_(SVDLinear_updateFullView)` from
`src/lib/THNN/generic/SVDLinear.c`, the sparse row-score kernel, together
with theorems about its behaviour.

Buffers are modelled as strided views: a backing storage (a total map
from element addresses to scalar values), a storage offset, and
per-dimension sizes and strides, mirroring the TH tensor metadata the C
code reads.  The scalar type `real` of the build is modelled by `ℚ`, so
every value the kernel computes is exact.  The OpenMP parallel loops are
embedded as sequential left folds over the same loop ranges, threading
the storage of `z` through the fold; the C loop counters are `long`s that
stay non-negative, so the trip counts `N` and `N * batchSize` appear as
`Int.toNat` of the corresponding sizes (a non-positive bound runs zero
iterations, exactly as in C).
-/

/-- Model of a TH `real` tensor view: backing storage (caller-owned, shared),
storage offset, and per-dimension strides and sizes. -/
structure THTensor where
  storage : Int → ℚ
  storageOffset : Int
  stride : List Int
  size : List Int

/-- Model of a TH `long` tensor view, used for the `indices` argument. -/
structure THLongTensor where
  storage : Int → Int
  storageOffset : Int
  stride : List Int
  size : List Int

/-- Stride of dimension `d`: the C code reads `t->stride[d]`. -/
def THTensor.strideAt (t : THTensor) (d : Nat) : Int := t.stride.getD d 0

/-- Stride of dimension `d` of a long tensor. -/
def THLongTensor.strideAt (t : THLongTensor) (d : Nat) : Int := t.stride.getD d 0

/-- Mirrors `THTensor_(size)(t, d)`. -/
def THTensor_size (t : THTensor) (d : Nat) : Int := t.size.getD d 0

/-- Mirrors `THLongTensor_size(t, d)`. -/
def THLongTensor_size (t : THLongTensor) (d : Nat) : Int := t.size.getD d 0

/-- Mirrors `THLongTensor_nDimension(t)`. -/
def THLongTensor_nDimension (t : THLongTensor) : Nat := t.size.length

/-- Mirrors `THTensor_(data)(t)`: the base address of the view inside its
backing storage (`storage->data + storageOffset`, as an element address). -/
def THTensor_data (t : THTensor) : Int := t.storageOffset

/-- Mirrors the macro `ROW_PTR2(t, r)` of SVDLinear.c:
`THTensor_(data)(t) + (r) * (t)->stride[0]`. -/
def ROW_PTR2 (t : THTensor) (r : Int) : Int := THTensor_data t + r * t.strideAt 0

/-- Mirrors the macro `COL_PTR2(t, c)` of SVDLinear.c:
`THTensor_(data)(t) + (c) * (t)->stride[1]`. -/
def COL_PTR2 (t : THTensor) (c : Int) : Int := THTensor_data t + c * t.strideAt 1

/-- Mirrors `THLongTensor_get1d(t, x0)`: strided read of a 1-d long view. -/
def THLongTensor_get1d (t : THLongTensor) (x0 : Int) : Int :=
  t.storage (t.storageOffset + x0 * t.strideAt 0)

/-- Mirrors `THLongTensor_get2d(t, x0, x1)`: strided read of a 2-d long view. -/
def THLongTensor_get2d (t : THLongTensor) (x0 x1 : Int) : Int :=
  t.storage (t.storageOffset + x0 * t.strideAt 0 + x1 * t.strideAt 1)

/-- Mirrors `THNN_(get1d)` of SVDLinear.c:
`THStorage_(get)(t->storage, t->storageOffset + x0*t->stride[0])`. -/
def THNN_get1d (t : THTensor) (x0 : Int) : ℚ :=
  t.storage (t.storageOffset + x0 * t.strideAt 0)

/-- Read of a 2-d cell, with the same addressing as `THNN_(set2d)` of
SVDLinear.c uses for its write. -/
def THNN_get2d (t : THTensor) (x0 x1 : Int) : ℚ :=
  t.storage (t.storageOffset + x0 * t.strideAt 0 + x1 * t.strideAt 1)

/-- Pointwise update of a storage at one address. -/
def setAt (s : Int → ℚ) (a : Int) (v : ℚ) : Int → ℚ :=
  fun x => if x = a then v else s x

/-- Mirrors `THNN_(set2d)` of SVDLinear.c
(`THStorage_(set)(t->storage, t->storageOffset + x0*t->stride[0] + x1*t->stride[1], value)`),
acting on the explicitly threaded storage `s` with the metadata of `t`. -/
def THNN_set2d (t : THTensor) (s : Int → ℚ) (x0 x1 : Int) (v : ℚ) : Int → ℚ :=
  setAt s (t.storageOffset + x0 * t.strideAt 0 + x1 * t.strideAt 1) v

/-- Modelled from the spec: `THNN_(set1d)` is called by the kernel but defined
elsewhere in the repository (not under src/).  Per the spec it writes the
result into `z[rowIndex]` through the 1-d strided view, i.e. at the address
`storageOffset + rowIndex * stride[0]`, symmetric to `THNN_(get1d)`. -/
def THNN_set1d (t : THTensor) (s : Int → ℚ) (x0 : Int) (v : ℚ) : Int → ℚ :=
  setAt s (t.storageOffset + x0 * t.strideAt 0) v

/-- Accumulation of the first `n` products of the two strided operands, in
the increasing-index order of the BLAS reference loop:
`dotAux sx x incx sy y incy n = sx[x] * sy[y] + ... + sx[x+(n-1)·incx] * sy[y+(n-1)·incy]`. -/
def dotAux (sx : Int → ℚ) (x incx : Int) (sy : Int → ℚ) (y incy : Int) : Nat → ℚ
  | 0 => 0
  | Nat.succ m =>
      dotAux sx x incx sy y incy m + sx (x + (m : Int) * incx) * sy (y + (m : Int) * incy)

/-- Mirrors `THBlas_(dot)(n, x, incx, y, incy)`, the dense inner-product
primitive the spec's §6 describes: the sum over `n` elements of the two
strided operands (`x`, `y` are base element addresses into `sx`, `sy`), in
the natural increasing-index summation order.  A non-positive `n` gives the
empty sum, as in BLAS. -/
def THBlas_dot (n : Int) (sx : Int → ℚ) (x incx : Int) (sy : Int → ℚ) (y incy : Int) : ℚ :=
  dotAux sx x incx sy y incy n.toNat

/-- Mirrors the conditional `(bias ? THNN_(get1d)(bias, vIdx) : 0)` that
appears in both loops of SVDLinear.c. -/
def biasTerm (bias : Option THTensor) (vIdx : Int) : ℚ :=
  match bias with
  | some b => THNN_get1d b vIdx
  | none => 0

/-- Embedding of `THNN_(SVDLinear_updateFullView)` of SVDLinear.c.  Reads
`N = size(indices, 0)`, `V = size(z, 0)` (read but unused by the C code) and
`D = size(h, 0)`; then, when `indices` is rank 1, loops over `nIdx < N`
resolving `vIdx = indices[nIdx] - 1` and writing
`z[vIdx] = dot(B[vIdx], h) + (bias ? bias[vIdx] : 0)`; otherwise loops over
the flattened pairs `nbIdx < N * batchSize` with `nIdx = nbIdx / batchSize`,
`bIdx = nbIdx % batchSize`, resolving `vIdx = indices[nIdx][bIdx] - 1` and
writing `z[vIdx][bIdx] = dot(B[vIdx], h[:, bIdx]) + (bias ? bias[vIdx] : 0)`.
Returns the updated `z`. -/
def SVDLinear_updateFullView (indices : THLongTensor) (z B h : THTensor)
    (bias : Option THTensor) : THTensor :=
  let N : Int := THLongTensor_size indices 0
  let _V : Int := THTensor_size z 0
  let D : Int := THTensor_size h 0
  if THLongTensor_nDimension indices = 1 then
    { z with storage :=
        (List.range N.toNat).foldl (fun s (nIdx : Nat) =>
          let vIdx : Int := THLongTensor_get1d indices (nIdx : Int) - 1
          THNN_set1d z s vIdx
            (THBlas_dot D B.storage (ROW_PTR2 B vIdx) (B.strideAt 1)
                h.storage (THTensor_data h) (h.strideAt 0)
              + biasTerm bias vIdx)) z.storage }
  else
    let batchSize : Int := THLongTensor_size indices 1
    { z with storage :=
        (List.range (N * batchSize).toNat).foldl (fun s nbIdx =>
          let nIdx : Nat := nbIdx / batchSize.toNat
          let bIdx : Nat := nbIdx % batchSize.toNat
          let vIdx : Int := THLongTensor_get2d indices (nIdx : Int) (bIdx : Int) - 1
          THNN_set2d z s vIdx (bIdx : Int)
            (THBlas_dot D B.storage (ROW_PTR2 B vIdx) (B.strideAt 1)
                h.storage (COL_PTR2 h (bIdx : Int)) (h.strideAt 0)
              + biasTerm bias vIdx)) z.storage }

/-- Number of work items the kernel dispatches: `N` in non-batched mode,
`N * batchSize` in batched mode (via `Int.toNat`, so a non-positive loop
bound gives zero items, as in C). -/
def itemCount (indices : THLongTensor) : Nat :=
  if THLongTensor_nDimension indices = 1 then (THLongTensor_size indices 0).toNat
  else (THLongTensor_size indices 0 * THLongTensor_size indices 1).toNat

/-- Identifier read by work item `k`: `indices[k]` in non-batched mode,
`indices[k / batchSize][k % batchSize]` in batched mode (the batched loop
flattens the pair `(n, b)` as `n * batchSize + b`). -/
def itemId (indices : THLongTensor) (k : Nat) : Int :=
  if THLongTensor_nDimension indices = 1 then THLongTensor_get1d indices (k : Int)
  else
    let batchSize : Nat := (THLongTensor_size indices 1).toNat
    THLongTensor_get2d indices ((k / batchSize : Nat) : Int) ((k % batchSize : Nat) : Int)

/-- Address in the storage of `z` written by work item `k`. -/
def itemAddr (indices : THLongTensor) (z : THTensor) (k : Nat) : Int :=
  if THLongTensor_nDimension indices = 1 then
    z.storageOffset + (itemId indices k - 1) * z.strideAt 0
  else
    let batchSize : Nat := (THLongTensor_size indices 1).toNat
    z.storageOffset + (itemId indices k - 1) * z.strideAt 0
      + ((k % batchSize : Nat) : Int) * z.strideAt 1

/-- Value computed by work item `k`: the strided dot product of row
`itemId k - 1` of `B` with `h` (or with column `k % batchSize` of `h`),
plus the optional bias entry. -/
def itemVal (indices : THLongTensor) (B h : THTensor) (bias : Option THTensor)
    (k : Nat) : ℚ :=
  if THLongTensor_nDimension indices = 1 then
    let vIdx : Int := itemId indices k - 1
    THBlas_dot (THTensor_size h 0) B.storage (ROW_PTR2 B vIdx) (B.strideAt 1)
        h.storage (THTensor_data h) (h.strideAt 0)
      + biasTerm bias vIdx
  else
    let batchSize : Nat := (THLongTensor_size indices 1).toNat
    let vIdx : Int := itemId indices k - 1
    THBlas_dot (THTensor_size h 0) B.storage (ROW_PTR2 B vIdx) (B.strideAt 1)
        h.storage (COL_PTR2 h ((k % batchSize : Nat) : Int)) (h.strideAt 0)
      + biasTerm bias vIdx

/-- Fold of single-cell writes, item `0` first: the sequential embedding of
the kernel's parallel fan-out. -/
def writeFold (a : Nat → Int) (v : Nat → ℚ) (n : Nat) (s : Int → ℚ) : Int → ℚ :=
  (List.range n).foldl (fun st k => setAt st (a k) (v k)) s

/-- Address `t` of the storage of `z` is written by some work item of the
call (`z[id-1]` non-batched, `z[id-1][b]` batched). -/
abbrev addressed (indices : THLongTensor) (z : THTensor) (t : Int) : Prop :=
  ∃ k, k < itemCount indices ∧ itemAddr indices z k = t

/-- Concrete non-batched index list `[1, 3]` of the spec's scenario 1
(N = 2, contiguous). -/
def exIndices : THLongTensor :=
  ⟨fun a => if a = 0 then 1 else if a = 1 then 3 else 0, 0, [1], [2]⟩

/-- Concrete weight matrix `B = [[1,2],[3,4],[5,6]]` (V = 3, D = 2,
row-major). -/
def exB : THTensor :=
  ⟨fun a => if a = 0 then 1 else if a = 1 then 2 else if a = 2 then 3
    else if a = 3 then 4 else if a = 4 then 5 else if a = 5 then 6 else 0,
   0, [2, 1], [3, 2]⟩

/-- Concrete hidden vector `h = [1, 1]` (D = 2). -/
def exH : THTensor := ⟨fun _ => 1, 0, [1], [2]⟩

/-- Concrete output buffer of length V = 3, pre-filled with the sentinel 7. -/
def exZ : THTensor := ⟨fun _ => 7, 0, [1], [3]⟩

/-- Concrete all-zero bias vector of length V = 3. -/
def exBias0 : THTensor := ⟨fun _ => 0, 0, [1], [3]⟩

/-- The index list of scenario 1 viewed as a rank-2 single-column matrix
`[N, 1] = [2, 1]` over the same storage (the column stride is arbitrary). -/
def exIndices2 : THLongTensor := ⟨exIndices.storage, 0, [1, 5], [2, 1]⟩

/-- The output buffer viewed as a single-column matrix `[3, 1]` over the
same storage. -/
def exZ2 : THTensor := ⟨exZ.storage, 0, [1, 9], [3, 1]⟩

/-- The hidden vector viewed as a single-column matrix `[2, 1]` over the
same storage. -/
def exH2 : THTensor := ⟨exH.storage, 0, [1, 4], [2, 1]⟩

/-- Concrete batched index matrix `[[1, 2]]` of the spec's scenario 3
(N = 1, Batch = 2, row-major). -/
def bIndices : THLongTensor :=
  ⟨fun a => if a = 0 then 1 else if a = 1 then 2 else 0, 0, [2, 1], [1, 2]⟩

/-- Concrete batched hidden matrix `h = [[1,1],[2,2]]` (D = 2, Batch = 2,
row-major): column 0 and column 1 are both `[1, 2]`. -/
def bH : THTensor :=
  ⟨fun a => if a = 0 then 1 else if a = 1 then 1 else if a = 2 then 2
    else if a = 3 then 2 else 0,
   0, [2, 1], [2, 2]⟩

/-- Concrete batched output buffer of shape `[3, 2]`, pre-filled with the
sentinel 7. -/
def bZ : THTensor := ⟨fun _ => 7, 0, [2, 1], [3, 2]⟩

/-- Index list with a duplicated identifier, `[2, 2]`, to exercise the
last-write-wins behaviour. -/
def dupIndices : THLongTensor :=
  ⟨fun a => if a = 0 then 2 else if a = 1 then 2 else 0, 0, [1], [2]⟩

/-- An output buffer of length 3 whose storage differs from `exZ` everywhere
(sentinel 9), for the noninterference claim. -/
def exZ9 : THTensor := ⟨fun _ => 9, 0, [1], [3]⟩

/-- A second output buffer with the same contents as `exZ`, built
independently. -/
def exZcopy : THTensor := ⟨fun _ => 7, 0, [1], [3]⟩

/-- An empty rank-1 index list (N = 0). -/
def emptyIndices : THLongTensor := ⟨fun _ => 0, 0, [1], [0]⟩

lemma writeFold_zero (a : Nat → Int) (v : Nat → ℚ) (s : Int → ℚ) :
    writeFold a v 0 s = s := rfl

lemma writeFold_succ (a : Nat → Int) (v : Nat → ℚ) (n : Nat) (s : Int → ℚ) :
    writeFold a v (n + 1) s = setAt (writeFold a v n s) (a n) (v n) := by
  unfold writeFold
  rw [List.range_succ, List.foldl_append]
  rfl

/-- The kernel is the `writeFold` of the per-item addresses and values over
the per-mode item count, leaving the metadata of `z` unchanged. -/
lemma updateFullView_eq (indices : THLongTensor) (z B h : THTensor)
    (bias : Option THTensor) :
    SVDLinear_updateFullView indices z B h bias =
      { z with
        storage := writeFold (itemAddr indices z) (itemVal indices B h bias) (itemCount indices) z.storage } := by
  by_cases hd : THLongTensor_nDimension indices = 1
  · simp only [SVDLinear_updateFullView, itemCount, itemAddr, itemVal, itemId,
      writeFold, THNN_set1d, hd, if_true]
  · simp only [SVDLinear_updateFullView, itemCount, itemAddr, itemVal, itemId,
      writeFold, THNN_set2d, hd, if_false]

lemma writeFold_frame (a : Nat → Int) (v : Nat → ℚ) (n : Nat) (s : Int → ℚ)
    (t : Int) (h : ∀ k, k < n → a k ≠ t) : writeFold a v n s t = s t := by
  induction n with
  | zero => rfl
  | succ m ih =>
      rw [writeFold_succ]
      have hm : a m ≠ t := h m (Nat.lt_succ_self m)
      unfold setAt
      rw [if_neg (fun he => hm he.symm)]
      exact ih (fun k hk => h k (Nat.lt_succ_of_lt hk))

lemma writeFold_dup (a : Nat → Int) (v : Nat → ℚ) (n : Nat) (s : Int → ℚ)
    (k : Nat) (hk : k < n)
    (hagree : ∀ m, m < n → a m = a k → v m = v k) :
    writeFold a v n s (a k) = v k := by
  induction n with
  | zero => exact absurd hk (Nat.not_lt_zero k)
  | succ m ih =>
      rw [writeFold_succ]
      by_cases hm : a m = a k
      · unfold setAt
        rw [if_pos hm.symm]
        exact hagree m (Nat.lt_succ_self m) hm
      · have hk' : k < m := by
          rcases Nat.lt_succ_iff_lt_or_eq.mp hk with h1 | h2
          · exact h1
          · exact absurd (h2 ▸ rfl) hm
        unfold setAt
        rw [if_neg (fun he => hm he.symm)]
        exact ih hk' (fun j hj he => hagree j (Nat.lt_succ_of_lt hj) he)

lemma writeFold_last (a : Nat → Int) (v : Nat → ℚ) (n : Nat) (s : Int → ℚ)
    (t : Int) (k : Nat) (hk : k < n) (ht : a k = t)
    (hlast : ∀ m, k < m → m < n → a m ≠ t) :
    writeFold a v n s t = v k := by
  induction n with
  | zero => exact absurd hk (Nat.not_lt_zero k)
  | succ m ih =>
      rw [writeFold_succ]
      rcases Nat.lt_succ_iff_lt_or_eq.mp hk with h1 | h2
      · have hm : a m ≠ t := hlast m h1 (Nat.lt_succ_self m)
        unfold setAt
        rw [if_neg (fun he => hm he.symm)]
        exact ih h1 (fun j hj1 hj2 => hlast j hj1 (Nat.lt_succ_of_lt hj2))
      · subst h2
        unfold setAt
        rw [if_pos ht.symm]

lemma writeFold_indep (a : Nat → Int) (v : Nat → ℚ) (n : Nat)
    (s₁ s₂ : Int → ℚ) (t : Int) (h : ∃ k, k < n ∧ a k = t) :
    writeFold a v n s₁ t = writeFold a v n s₂ t := by
  induction n with
  | zero =>
      obtain ⟨k, hk, _⟩ := h
      exact absurd hk (Nat.not_lt_zero k)
  | succ m ih =>
      rw [writeFold_succ, writeFold_succ]
      by_cases hm : a m = t
      · unfold setAt
        rw [if_pos hm.symm, if_pos hm.symm]
      · unfold setAt
        rw [if_neg (fun he => hm he.symm), if_neg (fun he => hm he.symm)]
        apply ih
        obtain ⟨k, hk, ha⟩ := h
        have hkm : k ≠ m := fun he => hm (he ▸ ha)
        exact ⟨k, by omega, ha⟩

lemma writeFold_congr (a a' : Nat → Int) (v v' : Nat → ℚ) (n : Nat)
    (s : Int → ℚ) (ha : ∀ k, k < n → a k = a' k) (hv : ∀ k, k < n → v k = v' k) :
    writeFold a v n s = writeFold a' v' n s := by
  induction n with
  | zero => rfl
  | succ m ih =>
      rw [writeFold_succ, writeFold_succ,
        ih (fun k hk => ha k (Nat.lt_succ_of_lt hk))
           (fun k hk => hv k (Nat.lt_succ_of_lt hk)),
        ha m (Nat.lt_succ_self m), hv m (Nat.lt_succ_self m)]

lemma flat_div (n b c : Nat) (hb : b < c) : (n * c + b) / c = n := by
  have hc : 0 < c := Nat.lt_of_le_of_lt (Nat.zero_le b) hb
  rw [Nat.mul_comm n c, Nat.mul_add_div hc, Nat.div_eq_of_lt hb, Nat.add_zero]

lemma flat_mod (n b c : Nat) (hb : b < c) : (n * c + b) % c = b := by
  rw [Nat.mul_comm n c, Nat.mul_add_mod, Nat.mod_eq_of_lt hb]

lemma itemAddr_nonbatched (indices : THLongTensor) (z : THTensor)
    (hdim : THLongTensor_nDimension indices = 1) (k : Nat) :
    itemAddr indices z k =
      z.storageOffset + (THLongTensor_get1d indices (k : Int) - 1) * z.strideAt 0 := by
  simp [itemAddr, itemId, hdim]

lemma itemVal_nonbatched (indices : THLongTensor) (B h : THTensor)
    (bias : Option THTensor) (hdim : THLongTensor_nDimension indices = 1) (k : Nat) :
    itemVal indices B h bias k =
      THBlas_dot (THTensor_size h 0) B.storage
          (ROW_PTR2 B (THLongTensor_get1d indices (k : Int) - 1)) (B.strideAt 1)
          h.storage (THTensor_data h) (h.strideAt 0)
        + biasTerm bias (THLongTensor_get1d indices (k : Int) - 1) := by
  simp [itemVal, itemId, hdim]

/-- C1: in non-batched mode, for every index position `n` below `N`, given
rank-1 indices with identifiers in `[1, V]` and matching dimensions (in
particular a 1-d output view whose stride is non-zero, so distinct rows are
distinct cells), the kernel leaves `z[indices[n] - 1]` holding the strided
dot product of row `indices[n] - 1` of `B` with `h` plus the bias entry when
bias is present and plus `0` when it is absent. -/
theorem C1_nonbatched_written_cell
    (indices : THLongTensor) (z B h : THTensor) (bias : Option THTensor)
    (hdim : THLongTensor_nDimension indices = 1)
    (hzstride : z.strideAt 0 ≠ 0)
    (hids : ∀ m, m < (THLongTensor_size indices 0).toNat →
      1 ≤ THLongTensor_get1d indices (m : Int) ∧
        THLongTensor_get1d indices (m : Int) ≤ THTensor_size z 0)
    (n : Nat) (hn : n < (THLongTensor_size indices 0).toNat) :
    THNN_get1d (SVDLinear_updateFullView indices z B h bias)
        (THLongTensor_get1d indices (n : Int) - 1) =
      THBlas_dot (THTensor_size h 0) B.storage
          (ROW_PTR2 B (THLongTensor_get1d indices (n : Int) - 1)) (B.strideAt 1)
          h.storage (THTensor_data h) (h.strideAt 0)
        + biasTerm bias (THLongTensor_get1d indices (n : Int) - 1) := by
  have hcnt : itemCount indices = (THLongTensor_size indices 0).toNat := by
    simp [itemCount, hdim]
  have hread : THNN_get1d (SVDLinear_updateFullView indices z B h bias)
      (THLongTensor_get1d indices (n : Int) - 1) =
      writeFold (itemAddr indices z) (itemVal indices B h bias)
        (itemCount indices) z.storage (itemAddr indices z n) := by
    rw [updateFullView_eq, itemAddr_nonbatched indices z hdim]
    rfl
  rw [hread]
  rw [writeFold_dup _ _ _ _ n (hcnt ▸ hn) ?_]
  · exact itemVal_nonbatched indices B h bias hdim n
  · intro m hm hme
    rw [itemAddr_nonbatched indices z hdim m, itemAddr_nonbatched indices z hdim n] at hme
    have h1 := add_left_cancel hme
    have h2 := mul_right_cancel₀ hzstride h1
    have hid : THLongTensor_get1d indices (m : Int) = THLongTensor_get1d indices (n : Int) := by
      omega
    rw [itemVal_nonbatched indices B h bias hdim m,
      itemVal_nonbatched indices B h bias hdim n, hid]

/-- Witness for C1 at the spec's scenario-1 data with `n = 0`:
`indices = [1, 3]`, `B = [[1,2],[3,4],[5,6]]`, `h = [1,1]`, no bias. -/
theorem C1_witness :
    THLongTensor_nDimension exIndices = 1 ∧
    (0 : Nat) < (THLongTensor_size exIndices 0).toNat ∧
    THNN_get1d (SVDLinear_updateFullView exIndices exZ exB exH none)
        (THLongTensor_get1d exIndices ((0 : Nat) : Int) - 1) =
      THBlas_dot (THTensor_size exH 0) exB.storage
          (ROW_PTR2 exB (THLongTensor_get1d exIndices ((0 : Nat) : Int) - 1))
          (exB.strideAt 1)
          exH.storage (THTensor_data exH) (exH.strideAt 0)
        + biasTerm none (THLongTensor_get1d exIndices ((0 : Nat) : Int) - 1) :=
  ⟨by decide, by decide,
    C1_nonbatched_written_cell exIndices exZ exB exH none (by decide) (by decide)
      (by decide) 0 (by decide)⟩

/-- C3: the kernel mutates only the cells of the storage of `z` addressed by
resolved indices (`z[id-1]` non-batched, `z[id-1][b]` batched); every other
storage entry keeps its prior value and the metadata of `z` is unchanged.
The remaining buffers `indices`, `B`, `h` and `bias` are only read: the
embedding returns the updated `z` and leaves them untouched by
construction. -/
theorem C3_frame (indices : THLongTensor) (z B h : THTensor)
    (bias : Option THTensor) (t : Int) (ht : ¬ addressed indices z t) :
    (SVDLinear_updateFullView indices z B h bias).storage t = z.storage t ∧
    (SVDLinear_updateFullView indices z B h bias).storageOffset = z.storageOffset ∧
    (SVDLinear_updateFullView indices z B h bias).stride = z.stride ∧
    (SVDLinear_updateFullView indices z B h bias).size = z.size := by
  rw [updateFullView_eq]
  refine ⟨?_, rfl, rfl, rfl⟩
  exact writeFold_frame _ _ _ _ t (fun k hk he => ht ⟨k, hk, he⟩)

/-- Witness for C3: on the scenario-1 data the cell of row 1 (address 1) is
addressed by no work item, and it keeps the sentinel value of `exZ`. -/
theorem C3_witness :
    ¬ addressed exIndices exZ 1 ∧
    (SVDLinear_updateFullView exIndices exZ exB exH none).storage 1 = exZ.storage 1 :=
  ⟨by decide, (C3_frame exIndices exZ exB exH none 1 (by decide)).1⟩

/-- C5: when several work items write the same cell of `z`, the cell ends up
holding the value of whichever item writes last; in this sequential
embedding that is the item with the largest loop index (largest `n`
non-batched, largest flattened `n * batchSize + b` batched). -/
theorem C5_duplicate_last_write_wins
    (indices : THLongTensor) (z B h : THTensor) (bias : Option THTensor)
    (k : Nat) (t : Int) (hk : k < itemCount indices)
    (ht : itemAddr indices z k = t)
    (hlast : ∀ m, k < m → m < itemCount indices → itemAddr indices z m ≠ t) :
    (SVDLinear_updateFullView indices z B h bias).storage t =
      itemVal indices B h bias k := by
  rw [updateFullView_eq]
  exact writeFold_last _ _ _ _ t k hk ht hlast

/-- Witness for C5: with the duplicated index list `[2, 2]` both work items
write cell 1, and the final value is the one computed by the larger loop
index 1. -/
theorem C5_witness :
    (1 : Nat) < itemCount dupIndices ∧
    (SVDLinear_updateFullView dupIndices exZ exB exH none).storage
        (itemAddr dupIndices exZ 1) = itemVal dupIndices exB exH none 1 :=
  ⟨by decide,
    C5_duplicate_last_write_wins dupIndices exZ exB exH none 1
      (itemAddr dupIndices exZ 1) (by decide) rfl
      (by
        intro m hm1 hm2
        have hc : itemCount dupIndices = 2 := by decide
        rw [hc] at hm2
        omega)⟩

/-- C7: concrete scenario 1 of the spec: V = 3, D = 2, N = 2, non-batched
`indices = [1, 3]`, `B = [[1,2],[3,4],[5,6]]`, `h = [1, 1]`, no bias; the
call sets `z[0] = 3` and `z[2] = 11` and leaves `z[1]` unchanged (the
sentinel of `exZ`). -/
theorem C7_concrete_scenario1 :
    THNN_get1d (SVDLinear_updateFullView exIndices exZ exB exH none) 0 = 3 ∧
    THNN_get1d (SVDLinear_updateFullView exIndices exZ exB exH none) 2 = 11 ∧
    THNN_get1d (SVDLinear_updateFullView exIndices exZ exB exH none) 1 =
      THNN_get1d exZ 1 := by
  norm_num [SVDLinear_updateFullView, THNN_set1d, THNN_get1d, setAt, THBlas_dot,
    dotAux, biasTerm, exIndices, exB, exH, exZ, THLongTensor_get1d, THTensor_data,
    ROW_PTR2, THTensor.strideAt, THLongTensor.strideAt, THTensor_size,
    THLongTensor_size, THLongTensor_nDimension,
    show Int.toNat 2 = 2 from rfl, show List.range 2 = [0, 1] from rfl]

/-- C9: an empty work set is a no-op: with rank-1 indices of length 0, or in
batched mode with `N * batchSize = 0`, the kernel writes nothing and returns
`z` unchanged. -/
theorem C9_empty_noop (indices : THLongTensor) (z B h : THTensor)
    (bias : Option THTensor)
    (h0 : (THLongTensor_nDimension indices = 1 ∧ THLongTensor_size indices 0 = 0) ∨
      (THLongTensor_nDimension indices ≠ 1 ∧
        THLongTensor_size indices 0 * THLongTensor_size indices 1 = 0)) :
    SVDLinear_updateFullView indices z B h bias = z := by
  have hc : itemCount indices = 0 := by
    rcases h0 with ⟨h1, h2⟩ | ⟨h1, h2⟩ <;> simp [itemCount, h1, h2]
  rw [updateFullView_eq, hc, writeFold_zero]

/-- Witness for C9: a rank-1 index list of length 0 leaves the output buffer
exactly as it was. -/
theorem C9_witness :
    (THLongTensor_nDimension emptyIndices = 1 ∧ THLongTensor_size emptyIndices 0 = 0) ∧
    SVDLinear_updateFullView emptyIndices exZ exB exH none = exZ :=
  ⟨by decide,
    C9_empty_noop emptyIndices exZ exB exH none (Or.inl ⟨by decide, by decide⟩)⟩

lemma toNat_mul_of_nonneg (a b : Int) (ha : 0 ≤ a) (hb : 0 ≤ b) :
    (a * b).toNat = a.toNat * b.toNat := by
  obtain ⟨m, rfl⟩ := Int.eq_ofNat_of_zero_le ha
  obtain ⟨p, rfl⟩ := Int.eq_ofNat_of_zero_le hb
  rw [← Nat.cast_mul, Int.toNat_natCast, Int.toNat_natCast, Int.toNat_natCast]

lemma itemCount_batched (indices : THLongTensor)
    (hdim : THLongTensor_nDimension indices ≠ 1) :
    itemCount indices =
      (THLongTensor_size indices 0 * THLongTensor_size indices 1).toNat := by
  simp [itemCount, hdim]

lemma flat_lt (indices : THLongTensor) (n b : Nat)
    (hn : n < (THLongTensor_size indices 0).toNat)
    (hb : b < (THLongTensor_size indices 1).toNat) :
    n * (THLongTensor_size indices 1).toNat + b <
      (THLongTensor_size indices 0 * THLongTensor_size indices 1).toNat := by
  rw [toNat_mul_of_nonneg _ _ (by omega) (by omega)]
  calc n * (THLongTensor_size indices 1).toNat + b
      < n * (THLongTensor_size indices 1).toNat + (THLongTensor_size indices 1).toNat :=
        Nat.add_lt_add_left hb _
    _ = (n + 1) * (THLongTensor_size indices 1).toNat := by ring
    _ ≤ (THLongTensor_size indices 0).toNat * (THLongTensor_size indices 1).toNat :=
        Nat.mul_le_mul_right _ hn

lemma itemId_batched (indices : THLongTensor)
    (hdim : THLongTensor_nDimension indices ≠ 1) (n b : Nat)
    (hb : b < (THLongTensor_size indices 1).toNat) :
    itemId indices (n * (THLongTensor_size indices 1).toNat + b) =
      THLongTensor_get2d indices (n : Int) (b : Int) := by
  simp [itemId, hdim, flat_div n b _ hb, flat_mod n b _ hb]

lemma itemAddr_batched (indices : THLongTensor) (z : THTensor)
    (hdim : THLongTensor_nDimension indices ≠ 1) (n b : Nat)
    (hb : b < (THLongTensor_size indices 1).toNat) :
    itemAddr indices z (n * (THLongTensor_size indices 1).toNat + b) =
      z.storageOffset
        + (THLongTensor_get2d indices (n : Int) (b : Int) - 1) * z.strideAt 0
        + (b : Int) * z.strideAt 1 := by
  simp [itemAddr, hdim, itemId_batched indices hdim n b hb, flat_mod n b _ hb]

lemma itemVal_batched (indices : THLongTensor) (B h : THTensor)
    (bias : Option THTensor)
    (hdim : THLongTensor_nDimension indices ≠ 1) (n b : Nat)
    (hb : b < (THLongTensor_size indices 1).toNat) :
    itemVal indices B h bias (n * (THLongTensor_size indices 1).toNat + b) =
      THBlas_dot (THTensor_size h 0) B.storage
          (ROW_PTR2 B (THLongTensor_get2d indices (n : Int) (b : Int) - 1)) (B.strideAt 1)
          h.storage (COL_PTR2 h (b : Int)) (h.strideAt 0)
        + biasTerm bias (THLongTensor_get2d indices (n : Int) (b : Int) - 1) := by
  simp [itemVal, hdim, itemId_batched indices hdim n b hb, flat_mod n b _ hb]

/-- C2: in batched mode, for every pair `(n, b)` with `n < N` and
`b < Batch`, given rank-2 indices of shape `[N, Batch]` with identifiers in
`[1, V]` and matching dimensions (in particular a 2-d output view in which
distinct logical cells `(row, batch)` have distinct addresses), the kernel
leaves `z[indices[n][b] - 1][b]` holding the strided dot product of row
`indices[n][b] - 1` of `B` with column `b` of `h`, plus the bias entry when
bias is present and plus `0` when it is absent. -/
theorem C2_batched_written_cell
    (indices : THLongTensor) (z B h : THTensor) (bias : Option THTensor)
    (hdim : THLongTensor_nDimension indices = 2)
    (hids : ∀ m, m < (THLongTensor_size indices 0).toNat →
      ∀ j, j < (THLongTensor_size indices 1).toNat →
      1 ≤ THLongTensor_get2d indices (m : Int) (j : Int) ∧
        THLongTensor_get2d indices (m : Int) (j : Int) ≤ THTensor_size z 0)
    (hinj : ∀ v₁, v₁ < (THTensor_size z 0).toNat →
      ∀ v₂, v₂ < (THTensor_size z 0).toNat →
      ∀ b₁, b₁ < (THLongTensor_size indices 1).toNat →
      ∀ b₂, b₂ < (THLongTensor_size indices 1).toNat →
      (v₁ : Int) * z.strideAt 0 + (b₁ : Int) * z.strideAt 1 =
        (v₂ : Int) * z.strideAt 0 + (b₂ : Int) * z.strideAt 1 →
      v₁ = v₂ ∧ b₁ = b₂)
    (n b : Nat) (hn : n < (THLongTensor_size indices 0).toNat)
    (hb : b < (THLongTensor_size indices 1).toNat) :
    THNN_get2d (SVDLinear_updateFullView indices z B h bias)
        (THLongTensor_get2d indices (n : Int) (b : Int) - 1) (b : Int) =
      THBlas_dot (THTensor_size h 0) B.storage
          (ROW_PTR2 B (THLongTensor_get2d indices (n : Int) (b : Int) - 1))
          (B.strideAt 1)
          h.storage (COL_PTR2 h (b : Int)) (h.strideAt 0)
        + biasTerm bias (THLongTensor_get2d indices (n : Int) (b : Int) - 1) := by
  have hd2 : THLongTensor_nDimension indices ≠ 1 := by rw [hdim]; decide
  have hc : 0 < (THLongTensor_size indices 1).toNat := by omega
  have hk : n * (THLongTensor_size indices 1).toNat + b < itemCount indices := by
    rw [itemCount_batched indices hd2]
    exact flat_lt indices n b hn hb
  have hread : THNN_get2d (SVDLinear_updateFullView indices z B h bias)
      (THLongTensor_get2d indices (n : Int) (b : Int) - 1) (b : Int) =
      writeFold (itemAddr indices z) (itemVal indices B h bias)
        (itemCount indices) z.storage
        (z.storageOffset
          + (THLongTensor_get2d indices (n : Int) (b : Int) - 1) * z.strideAt 0
          + (b : Int) * z.strideAt 1) := by
    rw [updateFullView_eq]
    rfl
  rw [hread, ← itemAddr_batched indices z hd2 n b hb]
  rw [writeFold_dup _ _ _ _ _ hk ?_]
  · exact itemVal_batched indices B h bias hd2 n b hb
  · intro m hm hme
    have hbm : m % (THLongTensor_size indices 1).toNat <
        (THLongTensor_size indices 1).toNat := Nat.mod_lt _ hc
    have hnm : m / (THLongTensor_size indices 1).toNat <
        (THLongTensor_size indices 0).toNat := by
      rw [Nat.div_lt_iff_lt_mul hc]
      rw [itemCount_batched indices hd2,
        toNat_mul_of_nonneg _ _ (by omega) (by omega)] at hm
      exact hm
    have hdm : m / (THLongTensor_size indices 1).toNat *
        (THLongTensor_size indices 1).toNat +
          m % (THLongTensor_size indices 1).toNat = m := by
      rw [Nat.mul_comm]
      exact Nat.div_add_mod m _
    obtain ⟨hm1, hm2⟩ := hids _ hnm _ hbm
    obtain ⟨hn1, hn2⟩ := hids n hn b hb
    rw [← hdm, itemAddr_batched indices z hd2 _ _ hbm,
      itemAddr_batched indices z hd2 n b hb] at hme
    have hstep : (THLongTensor_get2d indices
          ((m / (THLongTensor_size indices 1).toNat : Nat) : Int)
          ((m % (THLongTensor_size indices 1).toNat : Nat) : Int) - 1) * z.strideAt 0
        + ((m % (THLongTensor_size indices 1).toNat : Nat) : Int) * z.strideAt 1 =
        (THLongTensor_get2d indices (n : Int) (b : Int) - 1) * z.strideAt 0
        + (b : Int) * z.strideAt 1 := by
      rw [add_assoc, add_assoc] at hme
      exact add_left_cancel hme
    have hcast1 : (((THLongTensor_get2d indices
        ((m / (THLongTensor_size indices 1).toNat : Nat) : Int)
        ((m % (THLongTensor_size indices 1).toNat : Nat) : Int) - 1).toNat : Int)) =
        THLongTensor_get2d indices
          ((m / (THLongTensor_size indices 1).toNat : Nat) : Int)
          ((m % (THLongTensor_size indices 1).toNat : Nat) : Int) - 1 :=
      Int.toNat_of_nonneg (by omega)
    have hcast2 : (((THLongTensor_get2d indices (n : Int) (b : Int) - 1).toNat : Int)) =
        THLongTensor_get2d indices (n : Int) (b : Int) - 1 :=
      Int.toNat_of_nonneg (by omega)
    rw [← hcast1, ← hcast2] at hstep
    obtain ⟨he1, he2⟩ := hinj _ (by omega) _ (by omega) _ hbm _ hb hstep
    have hid : THLongTensor_get2d indices
        ((m / (THLongTensor_size indices 1).toNat : Nat) : Int)
        ((m % (THLongTensor_size indices 1).toNat : Nat) : Int) =
        THLongTensor_get2d indices (n : Int) (b : Int) := by omega
    rw [← hdm, itemVal_batched indices B h bias hd2 _ _ hbm,
      itemVal_batched indices B h bias hd2 n b hb, hid, he2]

/-- Witness for C2 at the spec's scenario-3 data with `(n, b) = (0, 0)`:
batched `indices = [[1, 2]]`, `h = [[1,1],[2,2]]`, `z` of shape `[3, 2]`
with row-major strides, no bias. -/
theorem C2_witness :
    THLongTensor_nDimension bIndices = 2 ∧
    THNN_get2d (SVDLinear_updateFullView bIndices bZ exB bH none)
        (THLongTensor_get2d bIndices ((0 : Nat) : Int) ((0 : Nat) : Int) - 1)
        ((0 : Nat) : Int) =
      THBlas_dot (THTensor_size bH 0) exB.storage
          (ROW_PTR2 exB (THLongTensor_get2d bIndices ((0 : Nat) : Int)
            ((0 : Nat) : Int) - 1))
          (exB.strideAt 1)
          bH.storage (COL_PTR2 bH ((0 : Nat) : Int)) (bH.strideAt 0)
        + biasTerm none (THLongTensor_get2d bIndices ((0 : Nat) : Int)
            ((0 : Nat) : Int) - 1) :=
  ⟨by decide,
    C2_batched_written_cell bIndices bZ exB bH none (by decide) (by decide)
      (by
        have e0 : bZ.strideAt 0 = 2 := rfl
        have e1 : bZ.strideAt 1 = 1 := rfl
        have e2 : (THTensor_size bZ 0).toNat = 3 := rfl
        have e3 : (THLongTensor_size bIndices 1).toNat = 2 := rfl
        rw [e0, e1, e2, e3]
        intro v₁ h1 v₂ h2 b₁ h3 b₂ h4 heq
        omega)
      0 0 (by decide) (by decide)⟩

lemma storage_mk (z : THTensor) (s : Int → ℚ) :
    ({ z with storage := s } : THTensor).storage = s := rfl

/-- C4: mode equivalence: a non-batched call (rank-1 indices of length N,
`h` of shape [D], `z` of shape [V]) and a batched call with `Batch = 1` on
the same data viewed as single-column matrices (`indices` [N, 1], `h`
[D, 1], `z` [V, 1], sharing storages, offsets and leading strides with the
rank-1 views; the column strides are irrelevant) produce identical storage
contents for `z`, in particular identical values in every written cell. -/
theorem C4_mode_equivalence
    (indices indices2 : THLongTensor) (z z2 B h h2 : THTensor)
    (bias : Option THTensor)
    (hdim : THLongTensor_nDimension indices = 1)
    (hist : indices2.storage = indices.storage)
    (hio : indices2.storageOffset = indices.storageOffset)
    (his0 : indices2.strideAt 0 = indices.strideAt 0)
    (hisz : indices2.size = [THLongTensor_size indices 0, 1])
    (hzst : z2.storage = z.storage)
    (hzo : z2.storageOffset = z.storageOffset)
    (hzs0 : z2.strideAt 0 = z.strideAt 0)
    (hhst : h2.storage = h.storage)
    (hho : h2.storageOffset = h.storageOffset)
    (hhs0 : h2.strideAt 0 = h.strideAt 0)
    (hhsz : THTensor_size h2 0 = THTensor_size h 0) :
    (SVDLinear_updateFullView indices2 z2 B h2 bias).storage =
      (SVDLinear_updateFullView indices z B h bias).storage := by
  have hd2 : THLongTensor_nDimension indices2 ≠ 1 := by
    simp [THLongTensor_nDimension, hisz]
  have hc1 : (THLongTensor_size indices2 1).toNat = 1 := by
    simp [THLongTensor_size, hisz]
  have hN : THLongTensor_size indices2 0 = THLongTensor_size indices 0 := by
    simp [THLongTensor_size, hisz]
  have hcnt : itemCount indices2 = itemCount indices := by
    simp [itemCount, hd2, hdim, THLongTensor_size, hisz]
  rw [updateFullView_eq, updateFullView_eq, storage_mk, storage_mk, hzst, hcnt]
  apply writeFold_congr
  · intro k hk
    simp [itemAddr, itemId, hd2, hdim, hc1, Nat.mod_one, Nat.div_one,
      THLongTensor_get2d, THLongTensor_get1d, hist, hio, his0, hzo, hzs0]
  · intro k hk
    simp [itemVal, itemId, hd2, hdim, hc1, Nat.mod_one, Nat.div_one,
      THLongTensor_get2d, THLongTensor_get1d, COL_PTR2, THTensor_data,
      hist, hio, his0, hhst, hho, hhs0, hhsz]

/-- Witness for C4: the scenario-1 data and its single-column rank-2 views
produce identical output storages. -/
theorem C4_witness :
    THLongTensor_nDimension exIndices = 1 ∧
    (SVDLinear_updateFullView exIndices2 exZ2 exB exH2 none).storage =
      (SVDLinear_updateFullView exIndices exZ exB exH none).storage :=
  ⟨by decide,
    C4_mode_equivalence exIndices exIndices2 exZ exZ2 exB exH exH2 none
      (by decide) rfl rfl rfl rfl rfl rfl rfl rfl rfl rfl rfl⟩

/-- C6: for every valid input, a call with bias absent produces exactly the
same output tensor as a call with a bias whose entries over `[0, V)` are all
zero: the bias contribution of an absent bias is `0` in every written
cell. -/
theorem C6_absent_bias_zero_bias
    (indices : THLongTensor) (z B h biasZ : THTensor)
    (hzero : ∀ v, v < (THTensor_size z 0).toNat → THNN_get1d biasZ (v : Int) = 0)
    (hids : ∀ k, k < itemCount indices →
      1 ≤ itemId indices k ∧ itemId indices k ≤ THTensor_size z 0) :
    SVDLinear_updateFullView indices z B h none =
      SVDLinear_updateFullView indices z B h (some biasZ) := by
  rw [updateFullView_eq, updateFullView_eq]
  have hW : writeFold (itemAddr indices z) (itemVal indices B h none)
      (itemCount indices) z.storage =
      writeFold (itemAddr indices z) (itemVal indices B h (some biasZ))
        (itemCount indices) z.storage := by
    apply writeFold_congr
    · intro k hk
      rfl
    · intro k hk
      obtain ⟨h1, h2⟩ := hids k hk
      have hcast : (((itemId indices k - 1).toNat : Nat) : Int) =
          itemId indices k - 1 := Int.toNat_of_nonneg (by omega)
      have hlt : (itemId indices k - 1).toNat < (THTensor_size z 0).toNat := by
        omega
      have hz0 : THNN_get1d biasZ (itemId indices k - 1) = 0 := by
        rw [← hcast]
        exact hzero _ hlt
      simp [itemVal, biasTerm, hz0]
  rw [hW]

/-- Witness for C6: on the scenario-1 data, the call without bias equals the
call with the all-zero bias vector `exBias0`. -/
theorem C6_witness :
    (∀ k, k < itemCount exIndices →
      1 ≤ itemId exIndices k ∧ itemId exIndices k ≤ THTensor_size exZ 0) ∧
    SVDLinear_updateFullView exIndices exZ exB exH none =
      SVDLinear_updateFullView exIndices exZ exB exH (some exBias0) :=
  ⟨by decide,
    C6_absent_bias_zero_bias exIndices exZ exB exH exBias0
      (fun v hv => rfl) (by decide)⟩

/-- C8: determinism and statelessness: two calls on inputs that agree field
by field (same index list, same weight, hidden, bias views, and the same
initial contents and metadata of `z`) return identical output tensors; the
embedding threads no state between calls, mirroring the C routine, which
touches no static or global data. -/
theorem C8_deterministic
    (i1 i2 : THLongTensor) (z1 z2 B1 B2 h1 h2 : THTensor)
    (bias1 bias2 : Option THTensor)
    (hi1 : i1.storage = i2.storage) (hi2 : i1.storageOffset = i2.storageOffset)
    (hi3 : i1.stride = i2.stride) (hi4 : i1.size = i2.size)
    (hz1 : z1.storage = z2.storage) (hz2 : z1.storageOffset = z2.storageOffset)
    (hz3 : z1.stride = z2.stride) (hz4 : z1.size = z2.size)
    (hB1 : B1.storage = B2.storage) (hB2 : B1.storageOffset = B2.storageOffset)
    (hB3 : B1.stride = B2.stride) (hB4 : B1.size = B2.size)
    (hh1 : h1.storage = h2.storage) (hh2 : h1.storageOffset = h2.storageOffset)
    (hh3 : h1.stride = h2.stride) (hh4 : h1.size = h2.size)
    (hbias : bias1 = bias2) :
    SVDLinear_updateFullView i1 z1 B1 h1 bias1 =
      SVDLinear_updateFullView i2 z2 B2 h2 bias2 := by
  have hi : i1 = i2 := by
    cases i1
    cases i2
    simp_all
  have hz : z1 = z2 := by
    cases z1
    cases z2
    simp_all
  have hB : B1 = B2 := by
    cases B1
    cases B2
    simp_all
  have hh : h1 = h2 := by
    cases h1
    cases h2
    simp_all
  rw [hi, hz, hB, hh, hbias]

/-- Witness for C8: two calls on independently built but identical inputs
(`exZ` and its copy `exZcopy`) return identical output tensors. -/
theorem C8_witness :
    exZ.storage = exZcopy.storage ∧
    SVDLinear_updateFullView exIndices exZ exB exH none =
      SVDLinear_updateFullView exIndices exZcopy exB exH none :=
  ⟨rfl,
    C8_deterministic exIndices exIndices exZ exZcopy exB exB exH exH none none
      rfl rfl rfl rfl rfl rfl rfl rfl rfl rfl rfl rfl rfl rfl rfl rfl rfl⟩

/-- C10: noninterference from the output buffer: the value written into an
addressed cell of `z` depends only on `indices`, `B`, `h` and `bias`, never
on the initial contents of `z`; two runs whose `z` buffers differ only in
initial storage contents agree on every addressed cell, and on every other
cell each run keeps its own initial value. -/
theorem C10_output_noninterference
    (indices : THLongTensor) (z1 z2 B h : THTensor) (bias : Option THTensor)
    (hoff : z2.storageOffset = z1.storageOffset)
    (hstr : z2.stride = z1.stride)
    (hsz : z2.size = z1.size)
    (t : Int) :
    (addressed indices z1 t →
      (SVDLinear_updateFullView indices z1 B h bias).storage t =
        (SVDLinear_updateFullView indices z2 B h bias).storage t) ∧
    (¬ addressed indices z1 t →
      (SVDLinear_updateFullView indices z1 B h bias).storage t = z1.storage t ∧
      (SVDLinear_updateFullView indices z2 B h bias).storage t = z2.storage t) := by
  have haddr : itemAddr indices z2 = itemAddr indices z1 := by
    funext k
    simp [itemAddr, THTensor.strideAt, hoff, hstr]
  rw [updateFullView_eq, updateFullView_eq, storage_mk, storage_mk, haddr]
  constructor
  · rintro ⟨k, hk, hak⟩
    exact writeFold_indep _ _ _ _ _ t ⟨k, hk, hak⟩
  · intro hna
    exact ⟨writeFold_frame _ _ _ _ t (fun k hk he => hna ⟨k, hk, he⟩),
      writeFold_frame _ _ _ _ t (fun k hk he => hna ⟨k, hk, he⟩)⟩

/-- Witness for C10: cell 0 is addressed on the scenario-1 data, and the
runs from `exZ` (sentinel 7) and `exZ9` (sentinel 9) write the same value
there. -/
theorem C10_witness :
    addressed exIndices exZ 0 ∧
    (SVDLinear_updateFullView exIndices exZ exB exH none).storage 0 =
      (SVDLinear_updateFullView exIndices exZ9 exB exH none).storage 0 :=
  ⟨by decide,
    (C10_output_noninterference exIndices exZ exZ9 exB exH none rfl rfl rfl 0).1
      (by decide)⟩
